import Mathlib

/-
Verification development for the `allo_cli_arguments` library
(src/src/Arguments.ts): a command-line flag declaration, resolution and
help-generation class for Deno.

The embedding follows the source file closely.  Parts of the repository
that the class imports but whose sources are absent (the tokenizer
`model/parse.ts`, the color helpers, `InfoInterruption.ts`,
`PrintableException.ts`) are modelled from the specification and marked
as such in their doc comments.  JavaScript exceptions are modelled with
`Except`; JavaScript `undefined` in raw flag values with a dedicated
constructor; the registry `Map` with an association list that mirrors
JS `Map` insertion/overwrite semantics.
-/

set_option autoImplicit false

namespace AlloCli

/-- Raw value attached to a parsed `Flag` token: `string | boolean | undefined`
in the source (`Flag.value`). -/
inductive RawValue where
  | str (s : String)
  | bool (b : Bool)
  | undefined
  deriving DecidableEq, Repr

/-- Universe of converted / default values flowing through the library
(the source types them as `unknown`).  `nan` models the JS NaN number. -/
inductive Value where
  | str (s : String)
  | num (n : Int)
  | nan
  | bool (b : Bool)
  deriving DecidableEq, Repr

/-- Token produced by the tokenizer: a tagged variant, `Flag` with a name and
an optional raw value, or `Command` with just a name (`model/parse.ts`). -/
inductive Token where
  | flag (name : String) (value : RawValue)
  | command (name : String)
  deriving DecidableEq, Repr

/-- The `_tag === 'Flag'` test used by `#getRaw` to filter out commands. -/
def Token.isFlag : Token → Bool
  | .flag _ _ => true
  | .command _ => false

/-- Name carried by a token. -/
def Token.name : Token → String
  | .flag n _ => n
  | .command n => n

/-- Raw value carried by a token (`undefined` for commands, unreachable here). -/
def Token.value : Token → RawValue
  | .flag _ v => v
  | .command _ => .undefined

/-- Modelled host primitive: JS `String.prototype.trim`, on the character
list (whitespace per `Char.isWhitespace`). -/
def jsTrim (s : String) : String :=
  String.mk
    (((s.data.dropWhile Char.isWhitespace).reverse.dropWhile Char.isWhitespace).reverse)

/-- Modelled host primitive: JS `String.prototype.toLowerCase`. -/
def jsToLower (s : String) : String :=
  String.mk (s.data.map Char.toLower)

/-- Modelled host primitive: JS `String.prototype.startsWith`. -/
def jsStartsWith (s pre : String) : Bool :=
  pre.data.isPrefixOf s.data

/-- Modelled host primitive: JS `String.prototype.includes` for one
character. -/
def jsContainsChar (s : String) (c : Char) : Bool :=
  s.data.any (fun x => x == c)

/-- Modelled host primitive: drop the first `n` characters. -/
def strDrop (s : String) (n : Nat) : String :=
  String.mk (s.data.drop n)

/-- Modelled host primitive: keep the first `n` characters
(JS `substring(0, n)`). -/
def strTake (s : String) (n : Nat) : String :=
  String.mk (s.data.take n)

/-- Modelled host primitive: JS `String.prototype.split` with a one-character
separator, on the character list. -/
def splitOnChar (c : Char) : List Char → List (List Char)
  | [] => [[]]
  | x :: xs =>
    match splitOnChar c xs with
    | [] => [[]]
    | h :: t => if x == c then [] :: h :: t else (x :: h) :: t

/-- Modelled host primitive: see `splitOnChar`. -/
def jsSplitOnChar (s : String) (c : Char) : List String :=
  (splitOnChar c s.data).map String.mk

/-- Modelled host primitive: parse a digit sequence (helper for `jsNumber`). -/
def digitsToNat (l : List Char) : Option Nat :=
  if l.isEmpty then none
  else if l.all Char.isDigit then
    some (l.foldl (fun n c => n * 10 + (c.toNat - ('0').toNat)) 0)
  else none

/-- Modelled host primitive: parse an optionally signed integer literal
(helper for `jsNumber`). -/
def intOfChars (l : List Char) : Option Int :=
  match l with
  | '-' :: rest => (digitsToNat rest).map (fun n => -(n : Int))
  | '+' :: rest => (digitsToNat rest).map (fun n => (n : Int))
  | _ => (digitsToNat l).map (fun n => (n : Int))

/-- JS exceptions thrown by the library: plain `Error`, the `TypeError` the
runtime raises when a property of `undefined` is read, and
`InfoInterruption` (modelled from the spec: `InfoInterruption.ts` is absent
from src; per the spec it is the help interruption, a subtype of
`PrintableException`, carrying the rendered help text). -/
inductive Exc where
  | error (msg : String)
  | typeError (msg : String)
  | infoInterruption (msg : String)
  deriving DecidableEq, Repr

/-- Modelled from the spec: `Arguments.isPrintableException` tests
`error instanceof PrintableException`; `PrintableException.ts` is absent from
src, and per the spec `InfoInterruption` is its only subtype present here,
while plain `Error`/`TypeError` are not printable. -/
def isPrintableException : Exc → Bool
  | .infoInterruption _ => true
  | .error _ => false
  | .typeError _ => false

/-- Decidable equality for `Except`, so that concrete runs of the embedded
operations can be checked by evaluation. -/
instance {ε α : Type} [DecidableEq ε] [DecidableEq α] : DecidableEq (Except ε α) :=
  fun a b =>
    match a, b with
    | .error x, .error y =>
      if h : x = y then .isTrue (by rw [h]) else .isFalse (by simp [h])
    | .ok x, .ok y =>
      if h : x = y then .isTrue (by rw [h]) else .isFalse (by simp [h])
    | .error _, .ok _ => .isFalse (fun h => Except.noConfusion h)
    | .ok _, .error _ => .isFalse (fun h => Except.noConfusion h)

/-- A caller-supplied convertor: `(value: undefined | string | boolean) => T | undefined`.
`none` is JS `undefined`. -/
def Convertor : Type := RawValue → Option Value

/-- Caller-supplied flag options (`FlagOptions<T>` in the source). -/
structure FlagOptions where
  convertor : Convertor
  shortName : Option String := none
  description : Option String := none
  default : Option (Unit → Value) := none
  excludeFromHelp : Option Bool := none

/-- Internal normalized declaration (`FlagDeclaration` in the source).  The
source declares `description : string[]`, but `createFlagDeclarations`
actually stores `undefined` when no description was given, hence `Option`. -/
structure FlagDeclaration where
  longName : String
  shortName : Option String
  description : Option (List String)
  default : Option (Unit → Value)
  convertor : Convertor
  excludeFromHelp : Bool

/-- The string interpolation `${v}` applied to a raw value. -/
def RawValue.toJsString : RawValue → String
  | .str s => s
  | .bool b => toString b
  | .undefined => "undefined"

/-- `booleanConvertor` from the source: `undefined`/`false` give `false`,
`true` gives `true`, and every string falls through to `return true` (the
explicit `'true'`/`'1'` tests and the final fallback all return `true`).
The source's `v === null` test is unreachable under the `Convertor` type and
is omitted. -/
def booleanConvertor : Convertor := fun v =>
  match v with
  | .undefined => some (.bool false)
  | .bool false => some (.bool false)
  | .bool true => some (.bool true)
  | .str v =>
    let s := jsTrim (jsToLower (RawValue.toJsString (.str v)))
    if s == "true" then some (.bool true)
    else if s == "1" then some (.bool true)
    else some (.bool true)

/-- `stringConvertor` from the source. -/
def stringConvertor : Convertor := fun v =>
  match v with
  | .undefined => none
  | v => some (.str v.toJsString)

/-- Modelled from the spec: the JS `Number` builtin (an external collaborator)
restricted to the inputs this library feeds it — booleans, `undefined` and
integer-literal strings; every other string is NaN. -/
def jsNumber : RawValue → Value
  | .bool true => .num 1
  | .bool false => .num 0
  | .undefined => .nan
  | .str s =>
    let t := jsTrim s
    if t == "" then .num 0
    else
      match intOfChars t.data with
      | some n => .num n
      | none => .nan

/-- `numberConvertor` from the source: `undefined` stays `undefined`,
anything else goes through `Number(v)`. -/
def numberConvertor : Convertor := fun v =>
  match v with
  | .undefined => none
  | v => some (jsNumber v)

/-- `helpFlagNames = ['help', 'h']`. -/
def helpFlagNames : String × String := ("help", "h")

/-- `normalizeName`: trim then lower-case. -/
def normalizeName (name : String) : String := jsToLower (jsTrim name)

/-- `normalizeShortName`: normalize then keep the first character. -/
def normalizeShortName (name : String) : String := strTake (normalizeName name) 1

/-- The per-entry mapping inside `createFlagDeclarations`: build one
`FlagDeclaration` from a (name, options) pair.  `op.shortName ? ... : undefined`
uses JS truthiness, so an empty short name stays `undefined`;
`op.description?.trim().split('\n') ?? undefined` keeps `undefined` when no
description was supplied. -/
def toFlagDeclaration (name : String) (op : FlagOptions) : FlagDeclaration :=
  { longName := normalizeName name
    shortName :=
      match op.shortName with
      | some s => if s == "" then none else some (normalizeShortName s)
      | none => none
    description := op.description.map (fun d => jsSplitOnChar (jsTrim d) '\n')
    default := op.default
    convertor := op.convertor
    excludeFromHelp := op.excludeFromHelp.getD false }

/-- The registry: an association list mirroring a JS `Map`'s entry list
(keys unique, in first-insertion order, value from the last set). -/
abbrev Registry : Type := List (String × FlagDeclaration)

/-- One `Map.set` step: overwrite in place if the key exists, else append. -/
def mapSet (m : Registry) (k : String) (v : FlagDeclaration) : Registry :=
  if m.any (fun p => p.1 == k) then
    m.map (fun p => if p.1 == k then (k, v) else p)
  else
    m ++ [(k, v)]

/-- `new Map(entries)`: insert the entries left to right. -/
def mapOfEntries (entries : List (String × FlagDeclaration)) : Registry :=
  entries.foldl (fun m p => mapSet m p.1 p.2) []

/-- `Map.get`. -/
def mapGet (m : Registry) (k : String) : Option FlagDeclaration :=
  (m.find? (fun p => p.1 == k)).map (fun p => p.2)

/-- `createFlagDeclarations` from the source: map every (name, options) entry
to a declaration keyed by its normalized long name and collect them into a
`Map` — duplicate normalized names silently collapse, last entry wins. -/
def createFlagDeclarations (options : List (String × FlagOptions)) : Registry :=
  mapOfEntries
    (options.map (fun p => (normalizeName p.1, toFlagDeclaration p.1 p.2)))

/-- Modelled from the spec: the tokenizer `tokenize(rawArgs)` of
`model/parse.ts`, which is absent from src.  Rules per the spec: `--name=v`
splits once on the first `=`; `--name` takes the following raw token as its
string value when that token does not start with `-`, else is boolean
`true`; `-abc` is a bundle of one-character boolean flags unless it contains
`=`, in which case only the first character names the flag; anything else is
a `Command`. -/
def splitFirstOn (c : Char) : List Char → List Char × List Char
  | [] => ([], [])
  | x :: xs =>
    if x = c then ([], xs)
    else
      let p := splitFirstOn c xs
      (x :: p.1, p.2)

/-- Modelled from the spec: split a string once on the first `=`. -/
def splitFirstEq (s : String) : String × String :=
  let p := splitFirstOn '=' s.data
  (String.mk p.1, String.mk p.2)

/-- Modelled from the spec: the tokens of one raw argument when no value is
consumed from the following argument — a `--name=v` or bare `--name` long
flag, a `-abc` bundle of one-character boolean flags (or `-n=v` keeping only
the first character), or a bare `Command`. -/
def tokenizeOne (arg : String) : List Token :=
  if jsStartsWith arg "--" then
    let body := strDrop arg 2
    if jsContainsChar body '=' then
      let p := splitFirstEq body
      [Token.flag p.1 (RawValue.str p.2)]
    else
      [Token.flag body (RawValue.bool true)]
  else if jsStartsWith arg "-" then
    let body := strDrop arg 1
    if jsContainsChar body '=' then
      let p := splitFirstEq body
      [Token.flag (strTake p.1 1) (RawValue.str p.2)]
    else
      body.data.map (fun c => Token.flag (String.singleton c) (RawValue.bool true))
  else
    [Token.command arg]

/-- Modelled from the spec: the tokenizer itself.  A bare `--name` long flag
consumes the next raw argument as its string value when that argument does
not itself start with `-`; every other argument produces its own tokens
(see `tokenizeOne`). -/
def tokenize : List String → List Token
  | [] => []
  | [arg] => tokenizeOne arg
  | arg :: next :: rest =>
    if jsStartsWith arg "--"
        && !jsContainsChar (strDrop arg 2) '='
        && !jsStartsWith next "-" then
      Token.flag (strDrop arg 2) (RawValue.str next) :: tokenize rest
    else
      tokenizeOne arg ++ tokenize (next :: rest)

/-- The state of an `Arguments` instance: the parsed token sequence
(`#rawArgs`), the declaration map (`#flagDeclarations`) and the stored
description (`#desciprion`, `string | null`, initially `null`). -/
structure ArgumentsState where
  rawArgs : List Token
  flagDeclarations : Registry
  desciprion : Option String

/-- The constructor: build the declarations from the options and parse the
raw argument vector (`Deno.args` in the source is the process argument
vector, passed here explicitly at the interface boundary). -/
def mkArguments (flagOptions : List (String × FlagOptions)) (denoArgs : List String) :
    ArgumentsState :=
  { rawArgs := tokenize denoArgs
    flagDeclarations := createFlagDeclarations flagOptions
    desciprion := none }

/-- `setDesciprion`: store the trimmed description (the only field write in
the class outside the constructor). -/
def setDesciprion (a : ArgumentsState) (description : String) : ArgumentsState :=
  { a with desciprion := some (jsTrim description) }

/-- `#getRaw(name, 'Flag')`: filter the parsed tokens to flags, then find the
first whose normalized name equals the normalized query name. -/
def getRawFlag (a : ArgumentsState) (name : String) : Option Token :=
  (a.rawArgs.filter Token.isFlag).find?
    (fun f => normalizeName name == normalizeName f.name)

/-- The `notFoundMessage` string of `#getFlagValue`. -/
def notFoundMessage (name : String) : String :=
  "Argument \"" ++ name ++ "\" is not declared."

/-- `#getFlagValue(name)`: look the normalized name up in the declaration
map (throw `notFoundMessage` if absent), look the declaration's long name up
among the flag tokens (throw the same `notFoundMessage` if absent), then
convert the token's raw value — or, when that raw value is `undefined`, fall
back to `dec.default?.() ?? undefined`. -/
def getFlagValue (a : ArgumentsState) (name : String) : Except Exc (Option Value) :=
  match mapGet a.flagDeclarations (normalizeName name) with
  | none => .error (.error (notFoundMessage name))
  | some dec =>
    match getRawFlag a dec.longName with
    | none => .error (.error (notFoundMessage name))
    | some flag =>
      match flag.value with
      | .undefined =>
        .ok (match dec.default with
             | some d => some (d ())
             | none => none)
      | rv => .ok (dec.convertor rv)

/-- `getFlags()`: resolve every declared long name in registry order; a
thrown resolution error propagates out of the surrounding `map`. -/
def getFlags (a : ArgumentsState) : Except Exc (List (String × Option Value)) :=
  (a.flagDeclarations.map (fun p => p.1)).mapM
    (fun longName => (getFlagValue a longName).map (fun v => (longName, v)))

/-- `isHelpRequested()`: resolve the built-in `help` flag and compare the
result with `true`. -/
def isHelpRequested (a : ArgumentsState) : Except Exc Bool :=
  (getFlagValue a helpFlagNames.1).map (fun v => v == some (.bool true))

/-- Modelled from the spec: the color helpers `primary`/`secondary`
(`helpers/colors.ts` is absent from src); per the spec styling must not
alter content and must be no-op-able, so both are content-preserving. -/
def primary (s : String) : String := s

/-- Modelled from the spec: see `primary`. -/
def secondary (s : String) : String := s

/-- Modelled from the spec: `Deno.inspect`, the host serialization facility
(an external collaborator), on the value universe used here. -/
def inspectValue : Value → String
  | .str s => "\"" ++ s ++ "\""
  | .num n => toString n
  | .nan => "NaN"
  | .bool b => toString b

/-- The `tab` helper of `computeHelpMessage`. -/
def tab (n : Nat) : String := String.mk (List.replicate (max n 1 * 2) ' ')

/-- Message of the `TypeError` the runtime raises when `computeHelpMessage`
reads `.map` off an `undefined` description. -/
def undefinedMapMessage : String :=
  "Cannot read properties of undefined (reading 'map')"

/-- One per-declaration block of `computeHelpMessage`: the names line, the
description lines, the rendered default; empty parts are dropped.  Reading
`dec.description.map` when the description is `undefined` raises a
`TypeError`. -/
def renderDeclBlock (dec : FlagDeclaration) : Except Exc String :=
  let long := "--" ++ dec.longName
  let short :=
    match dec.shortName with
    | some s => if s == "" then "" else "-" ++ s
    | none => ""
  let names :=
    tab 1 ++ String.intercalate ", "
      (([long, short].filter (fun n => n != "")).map primary)
  match dec.description with
  | none =>
    .error (.typeError undefinedMapMessage)
  | some descLines =>
    let description :=
      String.intercalate "\n" ((descLines.map secondary).map (fun l => tab 2 ++ l))
    let defaultValue :=
      match dec.default with
      | none => ""
      | some d =>
        let serialized := jsSplitOnChar (inspectValue (d ())) '\n'
        tab 2 ++ secondary "Default: " ++ String.intercalate ("\n" ++ tab 4) serialized
    .ok (String.intercalate "\n"
      (([names, description, defaultValue]).filter (fun s => s != "")))

/-- The `.map(dec => ...)` over the visible declarations: render each block
left to right, propagating the first thrown error. -/
def renderBlocks : List FlagDeclaration → Except Exc (List String)
  | [] => .ok []
  | dec :: rest =>
    match renderDeclBlock dec with
    | .error e => .error e
    | .ok s =>
      match renderBlocks rest with
      | .error e => .error e
      | .ok ss => .ok (s :: ss)

/-- `computeHelpMessage()`: render the non-hidden declarations in registry
order, join the blocks with blank lines, prepend the stored description, and
drop empty sections. -/
def computeHelpMessage (a : ArgumentsState) : Except Exc String :=
  match renderBlocks
      ((a.flagDeclarations.map (fun p => p.2)).filter
        (fun dec => !dec.excludeFromHelp)) with
  | .error e => .error e
  | .ok blocks =>
    let declarations := String.intercalate "\n\n" blocks
    let description := a.desciprion.getD ""
    .ok (String.intercalate "\n"
      ((["\n" ++ description, "\n" ++ declarations]).filter
        (fun s => jsTrim s != "")))

/-- `triggerHelp()`: throw an `InfoInterruption` carrying the rendered help
message; a failure inside `computeHelpMessage` propagates instead. -/
def triggerHelp (a : ArgumentsState) : Except Exc Unit :=
  match computeHelpMessage a with
  | .error e => .error e
  | .ok m => .error (.infoInterruption m)

/-- `Arguments.createHelp()`: the built-in `help`/`h` boolean flag options,
excluded from its own help listing. -/
def createHelp : List (String × FlagOptions) :=
  [(helpFlagNames.1,
    { convertor := booleanConvertor
      shortName := some helpFlagNames.2
      description := some "Show this help message."
      default := none
      excludeFromHelp := some true })]

/-- State-passing form of `getFlags()`: the method body performs no field
write, so the receiver comes back unchanged. -/
def getFlagsMethod (a : ArgumentsState) :
    Except Exc (List (String × Option Value)) × ArgumentsState :=
  (getFlags a, a)

/-- State-passing form of `isHelpRequested()` (no field write). -/
def isHelpRequestedMethod (a : ArgumentsState) : Except Exc Bool × ArgumentsState :=
  (isHelpRequested a, a)

/-- State-passing form of `computeHelpMessage()` (no field write). -/
def computeHelpMessageMethod (a : ArgumentsState) : Except Exc String × ArgumentsState :=
  (computeHelpMessage a, a)

/-- State-passing form of `#getFlagValue(name)` (no field write). -/
def getFlagValueMethod (a : ArgumentsState) (name : String) :
    Except Exc (Option Value) × ArgumentsState :=
  (getFlagValue a name, a)

/-- The `port` declaration of the spec's end-to-end example:
short name `p`, `numberConvertor`, default `8080`. -/
def portOptions : FlagOptions :=
  { convertor := numberConvertor
    shortName := some "p"
    description := some "HTTP port."
    default := some (fun _ => Value.num 8080) }

/-- A bare boolean flag declaration. -/
def verboseOptions : FlagOptions :=
  { convertor := booleanConvertor
    description := some "Verbose output." }

/-- First of two colliding declarations (distinguishable by description). -/
def firstOptions : FlagOptions :=
  { convertor := stringConvertor
    description := some "first" }

/-- Second of two colliding declarations (distinguishable by description). -/
def secondOptions : FlagOptions :=
  { convertor := stringConvertor
    description := some "second" }

/-- A declaration registered without any description. -/
def noDescOptions : FlagOptions :=
  { convertor := stringConvertor }

/-- C1: the claim says that a declared flag with no matching token resolves
through its `defaultSupplier` (or to `undefined`).  The code instead throws
the `notFoundMessage` error: with `port` declared with default `8080` and an
empty argument vector, `#getFlagValue('port')` throws
`Argument "port" is not declared.` — the `dec.default?.()` fallback is
unreachable for absent flags because of the preceding `if (!flag) throw`. -/
theorem getFlagValue_missing_token_throws_not_default :
    getFlagValue (mkArguments [("port", portOptions)] []) "port"
      = Except.error (Exc.error "Argument \"port\" is not declared.") := by
  decide

/-- C2: the claim says resolution matches a token against the declaration's
long or short name, so `["-p", "9090"]` makes `get('port')` return `9090`.
The code only ever compares token names against `dec.longName` (`#getRaw` is
called with `dec.longName`; `dec.shortName` is never consulted), so with
`port`/`p` declared and raw arguments `["-p", "9090"]` resolution throws the
not-declared error instead of returning a value. -/
theorem getFlagValue_short_alias_not_matched :
    getFlagValue (mkArguments [("port", portOptions)] ["-p", "9090"]) "port"
      = Except.error (Exc.error "Argument \"port\" is not declared.") := by
  decide

/-- C3 counterexample: two specs whose names both normalize to `port`
produce no configuration error — `createFlagDeclarations` returns a
one-entry map holding the second declaration (silent overwrite). -/
theorem createFlagDeclarations_duplicate_no_error :
    (createFlagDeclarations [("PORT", firstOptions), ("port", secondOptions)]).length = 1
    ∧ (mapGet (createFlagDeclarations [("PORT", firstOptions), ("port", secondOptions)])
        "port").map (fun d => d.description) = some (some ["second"]) := by
  decide

/-- C3 amended: constructing two declarations with the same normalized
longName raises no error; the registry silently collapses them, keeping the
declaration built from the later spec as the single entry for that name. -/
theorem createFlagDeclarations_duplicate_last_wins (n1 n2 : String)
    (o1 o2 : FlagOptions) (h : normalizeName n1 = normalizeName n2) :
    createFlagDeclarations [(n1, o1), (n2, o2)]
      = [(normalizeName n2, toFlagDeclaration n2 o2)] := by
  have hb : (normalizeName n1 == normalizeName n2) = true := by simp [h]
  simp [createFlagDeclarations, mapOfEntries, List.foldl, mapSet, hb, h]

/-- C3 witness: the amended theorem applied to the `PORT` / `port`
collision. -/
theorem createFlagDeclarations_duplicate_last_wins_witness :
    normalizeName "PORT" = normalizeName "port"
    ∧ createFlagDeclarations [("PORT", firstOptions), ("port", secondOptions)]
        = [(normalizeName "port", toFlagDeclaration "port" secondOptions)] :=
  ⟨by decide,
   createFlagDeclarations_duplicate_last_wins "PORT" "port" firstOptions secondOptions
     (by decide)⟩

/-- C4 counterexample: the claim says the recognized falsy strings `"false"`
and `"0"` map to `false`; the convertor's fallback branch maps every string
to `true`. -/
theorem booleanConvertor_falsy_strings_truthy :
    booleanConvertor (RawValue.str "false") = some (Value.bool true)
    ∧ booleanConvertor (RawValue.str "0") = some (Value.bool true) := by
  decide

/-- C4 amended: `booleanConvertor` maps `undefined` and boolean `false` to
`false`, boolean `true` (bare flag presence) to `true`, and every string —
`"true"` and `"1"` explicitly, and all others through the fallback, including
`"false"` and `"0"` — to `true`, never failing; a declared boolean flag
present with no explicit value resolves to `true`. -/
theorem booleanConvertor_observed_semantics :
    booleanConvertor RawValue.undefined = some (Value.bool false)
    ∧ booleanConvertor (RawValue.bool false) = some (Value.bool false)
    ∧ booleanConvertor (RawValue.bool true) = some (Value.bool true)
    ∧ (∀ s : String, booleanConvertor (RawValue.str s) = some (Value.bool true))
    ∧ getFlagValue (mkArguments [("verbose", verboseOptions)] ["--verbose"]) "verbose"
        = Except.ok (some (Value.bool true)) := by
  refine ⟨rfl, rfl, rfl, ?_, by decide⟩
  intro s
  simp only [booleanConvertor]
  split <;> try rfl
  split <;> rfl

/-- C5 counterexample: the claim says the name `"config, c"` is split on the
comma into longName `config` and shortName `c`; the registry instead keys the
declaration by the whole string `"config, c"`, and `config` is not a key. -/
theorem comma_name_kept_whole :
    (createFlagDeclarations [("config, c", firstOptions)]).map (fun p => p.1)
      = ["config, c"]
    ∧ (mapGet (createFlagDeclarations [("config, c", firstOptions)]) "config").isNone
        = true := by
  decide

/-- C5 amended: the registry performs no comma splitting: the entire name
string, trimmed and lower-cased, is the longName under which the declaration
is keyed; a short name comes only from `options.shortName`. -/
theorem createFlagDeclarations_singleton_key (name : String) (op : FlagOptions) :
    (createFlagDeclarations [(name, op)]).map (fun p => p.1) = [normalizeName name]
    ∧ mapGet (createFlagDeclarations [(name, op)]) (normalizeName name)
        = some (toFlagDeclaration name op) := by
  constructor <;>
    simp [createFlagDeclarations, mapOfEntries, mapSet, mapGet, List.foldl, List.find?]

/-- C6: a name whose normalized form is not a key of the declaration mapping
makes `#getFlagValue` throw the not-declared error, for every state and raw
input. -/
theorem getFlagValue_undeclared_error (a : ArgumentsState) (name : String)
    (h : mapGet a.flagDeclarations (normalizeName name) = none) :
    getFlagValue a name = Except.error (Exc.error (notFoundMessage name)) := by
  unfold getFlagValue
  rw [h]

/-- C6 witness: `port` is not declared in an empty registry, whatever the raw
arguments. -/
theorem getFlagValue_undeclared_error_witness :
    mapGet (mkArguments [] ["--x"]).flagDeclarations (normalizeName "port") = none
    ∧ getFlagValue (mkArguments [] ["--x"]) "port"
        = Except.error (Exc.error (notFoundMessage "port")) :=
  ⟨rfl, getFlagValue_undeclared_error (mkArguments [] ["--x"]) "port" rfl⟩

/-- C7: `triggerHelp` raises an interruption carrying exactly the rendered
help string, and that interruption is classified printable — whenever the
help rendering itself succeeds. -/
theorem triggerHelp_printable_interruption (a : ArgumentsState) (s : String)
    (h : computeHelpMessage a = Except.ok s) :
    triggerHelp a = Except.error (Exc.infoInterruption s)
    ∧ isPrintableException (Exc.infoInterruption s) = true := by
  refine ⟨?_, rfl⟩
  unfold triggerHelp
  rw [h]

/-- C7 witness: an instance whose only content is a top-level description
renders to the string `"\nHi"`, and `triggerHelp` raises the printable
interruption carrying it. -/
theorem triggerHelp_printable_interruption_witness :
    computeHelpMessage (setDesciprion (mkArguments [] []) "Hi") = Except.ok "\nHi"
    ∧ (triggerHelp (setDesciprion (mkArguments [] []) "Hi")
        = Except.error (Exc.infoInterruption "\nHi")
      ∧ isPrintableException (Exc.infoInterruption "\nHi") = true) :=
  ⟨by decide,
   triggerHelp_printable_interruption (setDesciprion (mkArguments [] []) "Hi") "\nHi"
     (by decide)⟩

/-- Filtering the registry to its visible declarations does not change the
visible-declaration list the help renderer walks. -/
theorem visible_decls_of_filter (l : Registry) :
    ((l.filter (fun p => !p.2.excludeFromHelp)).map (fun p => p.2)).filter
        (fun dec => !dec.excludeFromHelp)
      = (l.map (fun p => p.2)).filter (fun dec => !dec.excludeFromHelp) := by
  induction l with
  | nil => rfl
  | cons x xs ih =>
    cases hx : x.2.excludeFromHelp <;>
      simp [List.filter_cons, List.map_cons, hx, ih]

/-- C8: the rendered help is unchanged when every declaration marked
`excludeFromHelp` is removed from the registry — no hidden declaration
contributes a block — and the built-in `help`/`h` declaration produced by
`createHelp` is itself marked `excludeFromHelp`, so it never appears in the
rendered help by default. -/
theorem computeHelpMessage_excludes_hidden (a : ArgumentsState) :
    computeHelpMessage a
      = computeHelpMessage
          { a with
            flagDeclarations :=
              a.flagDeclarations.filter (fun p => !p.2.excludeFromHelp) }
    ∧ (createFlagDeclarations createHelp).all (fun p => p.2.excludeFromHelp) = true := by
  refine ⟨?_, rfl⟩
  simp only [computeHelpMessage]
  rw [visible_decls_of_filter]

/-- A declaration whose stored description is `undefined` makes its help
block throw the `TypeError`. -/
theorem renderDeclBlock_missing_description (dec : FlagDeclaration)
    (h : dec.description = none) :
    renderDeclBlock dec = Except.error (Exc.typeError undefinedMapMessage) := by
  simp [renderDeclBlock, h]

/-- The only error a help block can throw is the missing-description
`TypeError`. -/
theorem renderDeclBlock_error_eq (dec : FlagDeclaration) (e : Exc)
    (h : renderDeclBlock dec = Except.error e) :
    e = Exc.typeError undefinedMapMessage := by
  cases hd : dec.description with
  | none =>
    rw [renderDeclBlock_missing_description dec hd] at h
    injection h with h1
    exact h1.symm
  | some ls => simp [renderDeclBlock, hd] at h

/-- If some declaration in the rendered list has an `undefined` description,
the whole block rendering throws the `TypeError`. -/
theorem renderBlocks_error (l : List FlagDeclaration) (d : FlagDeclaration)
    (hd : d ∈ l) (hdesc : d.description = none) :
    renderBlocks l = Except.error (Exc.typeError undefinedMapMessage) := by
  induction l with
  | nil => cases hd
  | cons x xs ih =>
    rcases List.mem_cons.mp hd with h1 | h2
    · subst h1
      simp [renderBlocks, renderDeclBlock_missing_description d hdesc]
    · cases hx : renderDeclBlock x with
      | error e =>
        have he := renderDeclBlock_error_eq x e hx
        subst he
        simp [renderBlocks, hx]
      | ok s => simp [renderBlocks, hx, ih h2]

/-- C9: registering a flag without a description stores the description as
`undefined` rather than an empty line list, and rendering the help of any
instance whose registry holds such a declaration not excluded from help
throws the `TypeError`, because the renderer unconditionally maps over the
description lines. -/
theorem computeHelpMessage_missing_description_throws :
    (∀ (name : String) (op : FlagOptions),
        op.description = none → (toFlagDeclaration name op).description = none)
    ∧ (∀ (a : ArgumentsState) (d : FlagDeclaration),
        d ∈ a.flagDeclarations.map (fun p => p.2) →
        d.excludeFromHelp = false →
        d.description = none →
        computeHelpMessage a = Except.error (Exc.typeError undefinedMapMessage)) := by
  constructor
  · intro name op h
    simp [toFlagDeclaration, h]
  · intro a d hmem hvis hdesc
    have hd : d ∈ (a.flagDeclarations.map (fun p => p.2)).filter
        (fun dec => !dec.excludeFromHelp) := by
      rw [List.mem_filter]
      exact ⟨hmem, by simp [hvis]⟩
    simp [computeHelpMessage,
      renderBlocks_error
        ((a.flagDeclarations.map (fun p => p.2)).filter
          (fun dec => !dec.excludeFromHelp)) d hd hdesc]

/-- C9 witness: a registry holding one visible declaration registered without
a description makes `computeHelpMessage` throw the `TypeError`. -/
theorem computeHelpMessage_missing_description_throws_witness :
    noDescOptions.description = none
    ∧ (toFlagDeclaration "foo" noDescOptions).excludeFromHelp = false
    ∧ computeHelpMessage (mkArguments [("foo", noDescOptions)] [])
        = Except.error (Exc.typeError undefinedMapMessage) :=
  ⟨rfl, rfl,
   computeHelpMessage_missing_description_throws.2
     (mkArguments [("foo", noDescOptions)] [])
     (toFlagDeclaration "foo" noDescOptions)
     (List.Mem.head _)
     rfl rfl⟩

/-- C10: the query operations — `getFlags`, `isHelpRequested`,
`computeHelpMessage` and single-flag resolution — perform no field write, so
in state-passing form they return the receiver unchanged: the parsed token
sequence, the declaration mapping and the stored description all survive
every query (converters and default suppliers are pure in this embedding,
matching the claim's proviso). -/
theorem query_methods_preserve_state (a : ArgumentsState) (name : String) :
    (getFlagsMethod a).2 = a
    ∧ (isHelpRequestedMethod a).2 = a
    ∧ (computeHelpMessageMethod a).2 = a
    ∧ (getFlagValueMethod a name).2 = a
    ∧ (getFlagsMethod a).2.rawArgs = a.rawArgs
    ∧ (getFlagsMethod a).2.flagDeclarations = a.flagDeclarations
    ∧ (getFlagsMethod a).2.desciprion = a.desciprion :=
  ⟨rfl, rfl, rfl, rfl, rfl, rfl, rfl⟩

end AlloCli
